import Mathlib

/-!
Verification development for the proxy-stress-tester repository.

The Python sources are shallowly embedded:
- `schema.py` → the `Feedback`, `QAPair`, `EvaluationCheck`,
  `CheckerFailedErrorSchema`, `EvaluatedQA` structures;
- `main.py` (request builders, lines 26-97) → `get_similarity_request_body`,
  `get_conciseness_request_body`, `get_contains_code_request_body`,
  `prepare_requests`, `allRequests`;
- `main.py` (dispatcher, lines 100-158) → `is_rate_limit_error`,
  `attemptEval`, `retryGo`, `post`, `sendAll`, `loggedAsError`;
- `opensearch_client.py` (`get_qa_pairs`, lines 30-84) → `processHit`,
  `get_qa_pairs`.

HTTP transport, threads and randomness are abstracted: each payload's
sequence of transport outcomes is a function from the (1-based) attempt
number to an `AttemptOutcome`, and `random.choice` over the key list is an
arbitrary function from the global call counter to a key index (the
faithfulness condition "random.choice always returns an element of the
list" becomes the hypothesis that every chosen index is below the number
of keys). The `ThreadPoolExecutor`/`as_completed` loop is embedded
sequentially: each submitted future completes exactly once and the
completion order does not affect any property proved here.
-/

namespace ProxyStress

/-! ### Substring containment, modelling Python `pat in s` on strings -/

/-- `leadsWith p c` is true when the character list `c` starts with `p`. -/
def leadsWith : List Char → List Char → Bool
  | [], _ => true
  | _ :: _, [] => false
  | p :: ps, c :: cs => (p = c) && leadsWith ps cs

/-- `occursWithin pat hay` is true when `pat` occurs contiguously in `hay`,
matching Python `pat in hay` for character lists. -/
def occursWithin (pat : List Char) : List Char → Bool
  | [] => leadsWith pat []
  | c :: cs => leadsWith pat (c :: cs) || occursWithin pat cs

/-- Python `pat in s` for strings. -/
def strContains (s pat : String) : Bool :=
  occursWithin pat.data s.data

/-! ### schema.py -/

/-- `schema.py` lines 5-8: `Feedback`. -/
structure Feedback where
  rating : Int
  alternative_answer : Option (List String)
  comment : Option String
deriving DecidableEq

/-- `schema.py` lines 11-17: `QAPair`. -/
structure QAPair where
  id : String
  question : String
  answer : String
  feedback : Option Feedback
  version : String
  sources : List String
deriving DecidableEq

/-- `schema.py` lines 19-21: `EvaluationCheck`; the `dict[str, Any]` of
checks is embedded as an association list of string entries (its contents
are never inspected by the program after construction). -/
structure EvaluationCheck where
  name : String
  checks : List (String × String)
deriving DecidableEq

/-- `schema.py` lines 23-26: `CheckerFailedErrorSchema`. -/
structure CheckerFailedErrorSchema where
  error : String
  cause : String
  name : Option String
deriving DecidableEq

/-- `schema.py` lines 29-34: `EvaluatedQA`. -/
structure EvaluatedQA where
  replay_id : String
  old_qa_pair : QAPair
  new_qa_pair : QAPair
  checks : List EvaluationCheck
  errors : List CheckerFailedErrorSchema
deriving DecidableEq

/-! ### main.py lines 26-97: the request builders -/

/-- One `{role, content}` entry of a request body's `messages` list. -/
structure Message where
  role : String
  content : String
deriving DecidableEq

/-- A request payload `{model, messages, temperature}` as built by the
three builder functions of `main.py`. -/
structure RequestBody where
  model : String
  messages : List Message
  temperature : ℚ
deriving DecidableEq

/-- `main.py` lines 26-42: `get_similarity_request_body`. -/
def get_similarity_request_body
    (question old_answer new_answer openai_model : String) : RequestBody :=
  { model := openai_model
    messages :=
      [ { role := "system"
          content := "You are an AI assistant that compares two answers to the same question.\nCompare how similar the two answers are to each other in the context of the given question, based on the following 3 criteria:\nContent: This refers to whether the same facts, arguments, and conclusions are presented in both answers.\nStructure: The organization of information, including the sequence of ideas or arguments, can also be a point of comparison.\nStyle: This covers the tone, complexity, and specific word choices used in the answers.\nRate similarity for each criteria using exactly one of the following labels: [none, low, medium, high, exact]\nYour answer should be a JSON object with the following structure: \n\x7b\"content\": <similarity label>, \"structure\": <similarity label>, \"style\": <similarity label>, \"overall\": <similarity label\x7d" }
      , { role := "user"
          content := "Question: " ++ question ++ "\nFirst answer: " ++ old_answer ++ "\nSecond answer: " ++ new_answer ++ "\n." } ]
    temperature := 1 }

/-- `main.py` lines 45-61: `get_conciseness_request_body`. -/
def get_conciseness_request_body
    (question old_answer new_answer openai_model : String) : RequestBody :=
  { model := openai_model
    messages :=
      [ { role := "system"
          content := "You are an AI assistant that compares two different answers to the same question. You are to compare the second answer against the first on the following criterion: how concise the answer is. Classify the content in second answer as compared to the first answer, with one of the following labels: more, less, unchanged. Your answer should be a JSON object with conciseness as the key and the label as the value." }
      , { role := "user"
          content := "Question: " ++ question ++ "\nFirst answer: " ++ old_answer ++ "\nSecond answer: " ++ new_answer ++ "\n. Make sure your response is a json object with conciseness as the key." } ]
    temperature := 7 / 10 }

/-- `main.py` lines 64-80: `get_contains_code_request_body`. -/
def get_contains_code_request_body
    (question old_answer new_answer openai_model : String) : RequestBody :=
  { model := openai_model
    messages :=
      [ { role := "system"
          content := "You are an AI assistant that evaluates answers to a question.\nYou are provided a question, old answer and a new answer.\nEvaluate whether the answer contains any code (programming language snippets, scripts, etc.).\nYour response should be a JSON object with two items:\n1. \"old_answer_code\" as the key and the value being either true or false.\n2. \"new_answer_code\" as the key and the value being either true or false." }
      , { role := "user"
          content := "Question: " ++ question ++ "\nOld answer: " ++ old_answer ++ "\nNew answer: " ++ new_answer ++ "\n. Make sure your response is a json object with \"old_answer_code\" and \"new_answer_code\" as keys." } ]
    temperature := 1 }

/-- `main.py` lines 83-97: `prepare_requests` applies the three builders in
their fixed order to one record's question and both answers. -/
def prepare_requests (qa_pair : EvaluatedQA) (model : String) : List RequestBody :=
  [ get_similarity_request_body
      qa_pair.old_qa_pair.question qa_pair.old_qa_pair.answer
      qa_pair.new_qa_pair.answer model
  , get_conciseness_request_body
      qa_pair.old_qa_pair.question qa_pair.old_qa_pair.answer
      qa_pair.new_qa_pair.answer model
  , get_contains_code_request_body
      qa_pair.old_qa_pair.question qa_pair.old_qa_pair.answer
      qa_pair.new_qa_pair.answer model ]

/-- `main.py` lines 141-143: `all_requests`, the concatenation of
`prepare_requests` over every fetched record in order. -/
def allRequests (qa_pairs : List EvaluatedQA) (model : String) : List RequestBody :=
  qa_pairs.flatMap (fun qa => prepare_requests qa model)

/-! ### main.py lines 100-158: the retry-aware dispatcher

One HTTP attempt either yields a response with a status code and a body, or
raises a transport-level exception carrying a message
(`requests.post` raising). -/

/-- The raw outcome of one `requests.post` call. -/
inductive AttemptOutcome
  | response (status : Nat) (body : String)
  | transportError (msg : String)
deriving DecidableEq

/-- `main.py` lines 113-117: `is_rate_limit_error`, the retry predicate
handed to the `retrying` decorator: a text search for the rate-limit
phrase in the stringified exception. -/
def is_rate_limit_error (exceptionText : String) : Bool :=
  strContains exceptionText "Too many requests"

/-- `main.py` lines 132-139: the body of one attempt after the credential
bookkeeping: issue the call; a 429 status raises
`Exception("Too many requests")`, any exception from the transport
propagates, anything else returns the response. -/
def attemptEval : AttemptOutcome → Except String (Nat × String)
  | .response status body =>
      if status = 429 then .error "Too many requests" else .ok (status, body)
  | .transportError msg => .error msg

/-- The terminal outcome of `post` for one payload: either the returned
response, or the exception that escaped the retry decorator. The model
additionally records on which (1-based) attempt the loop stopped. -/
inductive PostResult
  | response (status : Nat) (body : String) (attempts : Nat)
  | raised (msg : String) (attempts : Nat)
deriving DecidableEq

/-- The attempt number at which `post` stopped, i.e. how many HTTP calls
that payload consumed. -/
def PostResult.numAttempts : PostResult → Nat
  | .response _ _ k => k
  | .raised _ k => k

/-- The mutable state of one run: the total number of HTTP calls issued so
far, the per-key usage counters (`keys_used`, keyed by the key's index in
`openai_api_keys`), and the number of progress-bar advances. -/
structure RunState where
  callCount : Nat
  usage : List Nat
  progress : Nat
deriving DecidableEq

/-- Increment the counter at index `i`, modelling
`keys_used[key] = keys_used.get(key, 0) + 1`. -/
def bumpAt : List Nat → Nat → List Nat
  | [], _ => []
  | x :: xs, 0 => (x + 1) :: xs
  | x :: xs, i + 1 => x :: bumpAt xs i

/-- `main.py` lines 126-127: one call's credential selection and usage
bookkeeping. `chooseKey` stands for `random.choice` and maps the global
call counter to the chosen key's index. -/
def recordCall (chooseKey : Nat → Nat) (st : RunState) : RunState :=
  { st with
    callCount := st.callCount + 1
    usage := bumpAt st.usage (chooseKey st.callCount) }

/-- `main.py` line 123: `stop_max_attempt_number=10`. -/
def stopMaxAttemptNumber : Nat := 10

/-- The `retrying` decorator's loop (`main.py` lines 119-124): run the
attempt; on success or on an exception rejected by `is_rate_limit_error`,
stop at once; on an accepted exception, retry while retries remain
(`fuel`), and re-raise the last exception when the attempt budget is
exhausted. `attempt` is the 1-based attempt number. -/
def retryGo (outcomes : Nat → AttemptOutcome) (chooseKey : Nat → Nat) :
    Nat → Nat → RunState → PostResult × RunState
  | 0, attempt, st =>
    let st1 := recordCall chooseKey st
    match attemptEval (outcomes attempt) with
    | .ok (s, b) => (.response s b attempt, st1)
    | .error m => (.raised m attempt, st1)
  | fuel + 1, attempt, st =>
    let st1 := recordCall chooseKey st
    match attemptEval (outcomes attempt) with
    | .ok (s, b) => (.response s b attempt, st1)
    | .error m =>
      if is_rate_limit_error m then retryGo outcomes chooseKey fuel (attempt + 1) st1
      else (.raised m attempt, st1)

/-- `main.py` lines 119-139: `post` for one payload, starting at attempt 1
with `stop_max_attempt_number - 1` retries available. -/
def post (outcomes : Nat → AttemptOutcome) (chooseKey : Nat → Nat)
    (st : RunState) : PostResult × RunState :=
  retryGo outcomes chooseKey (stopMaxAttemptNumber - 1) 1 st

/-- `main.py` lines 144-158: submit every payload, collect one terminal
result per payload, and advance the progress bar once per completed
future. Each element of `jobs` is one submitted payload's transport
behaviour (its outcome as a function of the attempt number). -/
def sendAll (chooseKey : Nat → Nat) :
    List (Nat → AttemptOutcome) → RunState → List PostResult × RunState
  | [], st => ([], st)
  | job :: jobs, st =>
    let pr := post job chooseKey st
    let st2 := { pr.2 with progress := pr.2.progress + 1 }
    let rest := sendAll chooseKey jobs st2
    (pr.1 :: rest.1, rest.2)

/-- `main.py` lines 149-157: the observer logs a completed future through
`logger.error` exactly when it raised an exception or its status code
differs from 200. -/
def loggedAsError : PostResult → Bool
  | .response status _ _ => status != 200
  | .raised _ _ => true

/-! ### opensearch_client.py lines 30-84: `get_qa_pairs`

One raw search hit is embedded field by field along the dictionary
accesses the adapter performs. `Option` marks keys read with `.get`
(absent → `None`); keys read with `[...]` whose absence would raise
`KeyError` are likewise `Option` so that absence can be modelled as an
error. A top-level `feedback` dict, when present, is embedded already
parsed (`Feedback(**feedback)` on a well-formed dict); the falsy/absent
cases both map to `none`. `sources` read with `.get("sources", [])`
defaults to `[]`, so it is a plain list. -/

/-- One value of the raw `evaluation["checks"]` dictionary: either a
nested dict (new schema) or anything else (old schema). -/
inductive CheckVal
  | dictVal (entries : List (String × String))
  | otherVal
deriving DecidableEq

/-- `isinstance(value, dict)` on a check value. -/
def CheckVal.isDict : CheckVal → Bool
  | .dictVal _ => true
  | .otherVal => false

/-- The raw `evaluation["old_qa"]` sub-dictionary, along the accesses in
`opensearch_client.py` lines 66-74. -/
structure OldQAData where
  id : String
  answer : String
  app_version : String
  sources : List String
  evaluation : Option Feedback
deriving DecidableEq

/-- The raw `evaluation` sub-dictionary, along the accesses in
`opensearch_client.py` lines 52-74. `replay_id` and `checks` are `Option`
because their absence raises (`KeyError` resp. `AttributeError` on
`None.items()`). -/
structure EvaluationData where
  replay_id : Option String
  checks : Option (List (String × CheckVal))
  errors : List CheckerFailedErrorSchema
  old_qa : OldQAData
deriving DecidableEq

/-- One raw search hit, along the accesses in `opensearch_client.py`
lines 37-74. -/
structure Hit where
  id : String
  question : String
  answer : String
  app_version : String
  feedback : Option Feedback
  sources : List String
  evaluation : Option EvaluationData
deriving DecidableEq

/-- `opensearch_client.py` lines 37-83: the body of the per-hit loop.
Mirrors the statement order of the source: build `new_qa_pair`, reject an
unevaluated hit (`raise ValueError`), read `replay_id`, keep only the
dict-valued checks, parse the errors, then build `old_qa_pair` — whose
`feedback` argument is `Feedback(**old_feedback) if feedback else None`,
guarded by the NEW record's `feedback` and raising `TypeError` when the
guard is truthy but `old_feedback` is `None`. -/
def processHit (hit : Hit) : Except String EvaluatedQA :=
  let new_qa_pair : QAPair :=
    { id := hit.id
      question := hit.question
      answer := hit.answer
      feedback := hit.feedback
      version := hit.app_version
      sources := hit.sources }
  match hit.evaluation with
  | none => .error "ValueError: Specified QA pair has not been evaluated"
  | some evaluation =>
    match evaluation.replay_id with
    | none => .error "KeyError: replay_id"
    | some replay_id =>
      match evaluation.checks with
      | none => .error "AttributeError: NoneType object has no attribute items"
      | some check_dictionary =>
        let checks : List EvaluationCheck :=
          check_dictionary.filterMap (fun kv =>
            match kv.2 with
            | .dictVal entries => some { name := kv.1, checks := entries }
            | .otherVal => none)
        let errors : List CheckerFailedErrorSchema := evaluation.errors
        let old_feedback : Except String (Option Feedback) :=
          match hit.feedback with
          | some _ =>
            match evaluation.old_qa.evaluation with
            | some fb => .ok (some fb)
            | none => .error "TypeError: argument of type NoneType is not a mapping"
          | none => .ok none
        match old_feedback with
        | .error e => .error e
        | .ok fb =>
          let old_qa_pair : QAPair :=
            { id := evaluation.old_qa.id
              question := hit.question
              answer := evaluation.old_qa.answer
              feedback := fb
              version := evaluation.old_qa.app_version
              sources := evaluation.old_qa.sources }
          .ok { replay_id := replay_id
                old_qa_pair := old_qa_pair
                new_qa_pair := new_qa_pair
                checks := checks
                errors := errors }

/-- `opensearch_client.py` lines 30-84: `get_qa_pairs` over an abstract
hit list. The Python `for` loop appends each translated hit; any raise
inside the loop aborts the whole call, so the embedding is a monadic
traversal in `Except`. -/
def get_qa_pairs : List Hit → Except String (List EvaluatedQA)
  | [] => .ok []
  | hit :: hits =>
    match processHit hit with
    | .error e => .error e
    | .ok qa =>
      match get_qa_pairs hits with
      | .error e => .error e
      | .ok rest => .ok (qa :: rest)

/-! ### Helper lemmas about the dispatcher -/

/-- `bumpAt` never changes the length of the counter list. -/
theorem bumpAt_length (l : List Nat) (i : Nat) : (bumpAt l i).length = l.length := by
  induction l generalizing i with
  | nil => rfl
  | cons x xs ih =>
    cases i with
    | zero => simp [bumpAt]
    | succ j => simp [bumpAt, ih]

/-- Incrementing a counter at a valid index raises the total by one. -/
theorem bumpAt_sum (l : List Nat) (i : Nat) (h : i < l.length) :
    (bumpAt l i).sum = l.sum + 1 := by
  induction l generalizing i with
  | nil => simp at h
  | cons x xs ih =>
    cases i with
    | zero => simp [bumpAt]; omega
    | succ j =>
      simp only [bumpAt, List.sum_cons]
      rw [ih j (by simpa using h)]
      omega

/-- A successful attempt stops the retry loop at once, whatever retry
budget remains. -/
theorem retryGo_stop_ok (outcomes : Nat → AttemptOutcome) (ck : Nat → Nat)
    (fuel attempt : Nat) (st : RunState) (s : Nat) (b : String)
    (he : attemptEval (outcomes attempt) = .ok (s, b)) :
    retryGo outcomes ck fuel attempt st = (.response s b attempt, recordCall ck st) := by
  cases fuel <;> simp [retryGo, he]

/-- An exception rejected by the retry predicate stops the loop at once,
whatever retry budget remains. -/
theorem retryGo_stop_error (outcomes : Nat → AttemptOutcome) (ck : Nat → Nat)
    (fuel attempt : Nat) (st : RunState) (m : String)
    (he : attemptEval (outcomes attempt) = .error m)
    (hm : is_rate_limit_error m = false) :
    retryGo outcomes ck fuel attempt st = (.raised m attempt, recordCall ck st) := by
  cases fuel <;> simp [retryGo, he, hm]

/-- An exception accepted by the retry predicate consumes one unit of
retry budget and moves to the next attempt. -/
theorem retryGo_step_error (outcomes : Nat → AttemptOutcome) (ck : Nat → Nat)
    (fuel attempt : Nat) (st : RunState) (m : String)
    (he : attemptEval (outcomes attempt) = .error m)
    (hm : is_rate_limit_error m = true) (hfuel : fuel ≠ 0) :
    retryGo outcomes ck fuel attempt st
      = retryGo outcomes ck (fuel - 1) (attempt + 1) (recordCall ck st) := by
  cases fuel with
  | zero => exact absurd rfl hfuel
  | succ f => simp [retryGo, he, hm]

/-- The retry loop leaves the progress counter alone, and issues exactly
`numAttempts - attempt + 1` HTTP calls (stated without subtraction). -/
theorem retryGo_basic (outcomes : Nat → AttemptOutcome) (ck : Nat → Nat) :
    ∀ fuel attempt st,
      (retryGo outcomes ck fuel attempt st).2.progress = st.progress ∧
      (retryGo outcomes ck fuel attempt st).2.callCount + attempt
        = st.callCount + (retryGo outcomes ck fuel attempt st).1.numAttempts + 1 := by
  intro fuel
  induction fuel with
  | zero =>
    intro attempt st
    cases he : attemptEval (outcomes attempt) with
    | ok sb =>
      obtain ⟨s, b⟩ := sb
      simp [retryGo, he, recordCall, PostResult.numAttempts]
      omega
    | error m =>
      simp [retryGo, he, recordCall, PostResult.numAttempts]
      omega
  | succ fuel ih =>
    intro attempt st
    cases he : attemptEval (outcomes attempt) with
    | ok sb =>
      obtain ⟨s, b⟩ := sb
      simp [retryGo, he, recordCall, PostResult.numAttempts]
      omega
    | error m =>
      by_cases hm : is_rate_limit_error m = true
      · rw [retryGo_step_error outcomes ck (fuel + 1) attempt st m he hm (by omega)]
        have h := ih (attempt + 1) (recordCall ck st)
        have hc : (recordCall ck st).callCount = st.callCount + 1 := rfl
        have hp : (recordCall ck st).progress = st.progress := rfl
        simp only [Nat.add_sub_cancel]
        exact ⟨h.1.trans hp, by omega⟩
      · rw [retryGo_stop_error outcomes ck (fuel + 1) attempt st m he (by simpa using hm)]
        simp [recordCall, PostResult.numAttempts]
        omega

/-- `retryGo` keeps the usage-counter list's length and, when every chosen
key index is valid, raises the usage total by exactly the number of calls
it issues. -/
theorem retryGo_usage (outcomes : Nat → AttemptOutcome) (ck : Nat → Nat) (n : Nat)
    (hck : ∀ t, ck t < n) :
    ∀ fuel attempt st, st.usage.length = n →
      (retryGo outcomes ck fuel attempt st).2.usage.length = n ∧
      (retryGo outcomes ck fuel attempt st).2.usage.sum + attempt
        = st.usage.sum + (retryGo outcomes ck fuel attempt st).1.numAttempts + 1 := by
  intro fuel
  induction fuel with
  | zero =>
    intro attempt st hlen
    have hb : (bumpAt st.usage (ck st.callCount)).sum = st.usage.sum + 1 :=
      bumpAt_sum _ _ (by rw [hlen]; exact hck _)
    cases he : attemptEval (outcomes attempt) with
    | ok sb =>
      obtain ⟨s, b⟩ := sb
      simp [retryGo, he, recordCall, PostResult.numAttempts, bumpAt_length, hlen, hb]
      omega
    | error m =>
      simp [retryGo, he, recordCall, PostResult.numAttempts, bumpAt_length, hlen, hb]
      omega
  | succ fuel ih =>
    intro attempt st hlen
    have hb : (bumpAt st.usage (ck st.callCount)).sum = st.usage.sum + 1 :=
      bumpAt_sum _ _ (by rw [hlen]; exact hck _)
    cases he : attemptEval (outcomes attempt) with
    | ok sb =>
      obtain ⟨s, b⟩ := sb
      simp [retryGo, he, recordCall, PostResult.numAttempts, bumpAt_length, hlen, hb]
      omega
    | error m =>
      by_cases hm : is_rate_limit_error m = true
      · rw [retryGo_step_error outcomes ck (fuel + 1) attempt st m he hm (by omega)]
        have h := ih (attempt + 1) (recordCall ck st)
          (by simp [recordCall, bumpAt_length, hlen])
        have hs : (recordCall ck st).usage.sum = st.usage.sum + 1 := by
          simpa [recordCall] using hb
        simp only [Nat.add_sub_cancel]
        exact ⟨h.1, by omega⟩
      · rw [retryGo_stop_error outcomes ck (fuel + 1) attempt st m he (by simpa using hm)]
        simp [recordCall, PostResult.numAttempts, bumpAt_length, hlen, hb]
        omega

/-- If every attempt raises the same retryable exception, the loop spends
its whole budget and re-raises that exception on the last attempt. -/
theorem retryGo_all_rate_limited (outcomes : Nat → AttemptOutcome) (ck : Nat → Nat)
    (m : String) (hm : is_rate_limit_error m = true)
    (h : ∀ k, attemptEval (outcomes k) = .error m) :
    ∀ fuel attempt st,
      (retryGo outcomes ck fuel attempt st).1 = .raised m (attempt + fuel) := by
  intro fuel
  induction fuel with
  | zero => intro attempt st; simp [retryGo, h]
  | succ fuel ih =>
    intro attempt st
    rw [retryGo_step_error outcomes ck (fuel + 1) attempt st m (h attempt) hm (by omega)]
    simp only [Nat.add_sub_cancel]
    rw [ih (attempt + 1) (recordCall ck st)]
    congr 1
    omega

/-- `post` leaves the progress counter alone and issues exactly
`numAttempts` HTTP calls. -/
theorem post_basic (outcomes : Nat → AttemptOutcome) (ck : Nat → Nat) (st : RunState) :
    (post outcomes ck st).2.progress = st.progress ∧
    (post outcomes ck st).2.callCount
      = st.callCount + (post outcomes ck st).1.numAttempts := by
  have h := retryGo_basic outcomes ck (stopMaxAttemptNumber - 1) 1 st
  simp only [post]
  exact ⟨h.1, by omega⟩

/-- `post` keeps the usage list's length and raises the usage total by
exactly its number of attempts. -/
theorem post_usage (outcomes : Nat → AttemptOutcome) (ck : Nat → Nat) (n : Nat)
    (hck : ∀ t, ck t < n) (st : RunState) (hlen : st.usage.length = n) :
    (post outcomes ck st).2.usage.length = n ∧
    (post outcomes ck st).2.usage.sum
      = st.usage.sum + (post outcomes ck st).1.numAttempts := by
  have h := retryGo_usage outcomes ck n hck (stopMaxAttemptNumber - 1) 1 st hlen
  simp only [post]
  exact ⟨h.1, by omega⟩

/-- A full dispatch run yields one result per job, advances the progress
bar once per job, and its final call counter is the initial one plus the
total number of attempts across all results. -/
theorem sendAll_basic (ck : Nat → Nat) :
    ∀ (jobs : List (Nat → AttemptOutcome)) (st : RunState),
      (sendAll ck jobs st).1.length = jobs.length ∧
      (sendAll ck jobs st).2.progress = st.progress + jobs.length ∧
      (sendAll ck jobs st).2.callCount
        = st.callCount + ((sendAll ck jobs st).1.map PostResult.numAttempts).sum := by
  intro jobs
  induction jobs with
  | nil => intro st; simp [sendAll]
  | cons job jobs ih =>
    intro st
    have hp := post_basic job ck st
    have hr := ih { (post job ck st).2 with progress := (post job ck st).2.progress + 1 }
    simp only [sendAll, List.length_cons, List.map_cons, List.sum_cons]
    simp only [RunState.mk.injEq] at hr ⊢
    refine ⟨by simpa using hr.1, ?_, ?_⟩
    · have h1 := hr.2.1
      simp at h1
      omega
    · have h2 := hr.2.2
      simp at h2
      omega

/-- A full dispatch run keeps the usage list's length and raises the
usage total by the total number of attempts across all results. -/
theorem sendAll_usage (ck : Nat → Nat) (n : Nat) (hck : ∀ t, ck t < n) :
    ∀ (jobs : List (Nat → AttemptOutcome)) (st : RunState), st.usage.length = n →
      (sendAll ck jobs st).2.usage.length = n ∧
      (sendAll ck jobs st).2.usage.sum
        = st.usage.sum + ((sendAll ck jobs st).1.map PostResult.numAttempts).sum := by
  intro jobs
  induction jobs with
  | nil => intro st hlen; simp [sendAll, hlen]
  | cons job jobs ih =>
    intro st hlen
    have hp := post_usage job ck n hck st hlen
    have hr := ih { (post job ck st).2 with progress := (post job ck st).2.progress + 1 }
      (by simpa using hp.1)
    simp only [sendAll, List.map_cons, List.sum_cons]
    refine ⟨by simpa using hr.1, ?_⟩
    have h2 := hr.2
    simp at h2
    omega

/-! ### Concrete behaviours used by the witnesses -/

/-- A payload whose every attempt is rate-limited. -/
def wOutcomes429 : Nat → AttemptOutcome := fun _ => .response 429 "busy"

/-- A payload that is rate-limited on attempts 1 and 2 and succeeds on
attempt 3. -/
def wOutcomes429Twice : Nat → AttemptOutcome
  | 1 => .response 429 "busy"
  | 2 => .response 429 "busy"
  | _ => .response 200 "ok"

/-- A payload that succeeds immediately. -/
def wOutcomesOk : Nat → AttemptOutcome := fun _ => .response 200 "ok"

/-! ### The claims -/

/-- Claim C1: a payload whose every HTTP attempt returns 429 is retried up
to the configured maximum of 10 attempts, then terminates as a terminal
failure carrying the last observed error ("Too many requests", the
exception the 429 branch raises), with exactly 10 calls issued and no
further retries. -/
theorem payload_always_429_terminates_after_max_attempts
    (outcomes : Nat → AttemptOutcome) (ck : Nat → Nat) (st : RunState)
    (h : ∀ k, ∃ b, outcomes k = .response 429 b) :
    (post outcomes ck st).1 = .raised "Too many requests" 10 ∧
    (post outcomes ck st).2.callCount = st.callCount + 10 := by
  have ha : ∀ k, attemptEval (outcomes k) = .error "Too many requests" := by
    intro k
    obtain ⟨b, hb⟩ := h k
    rw [hb]
    simp [attemptEval]
  have hm : is_rate_limit_error "Too many requests" = true := by decide
  have hres : (post outcomes ck st).1 = .raised "Too many requests" 10 := by
    have h10 := retryGo_all_rate_limited outcomes ck _ hm ha (stopMaxAttemptNumber - 1) 1 st
    simpa [post, stopMaxAttemptNumber] using h10
  refine ⟨hres, ?_⟩
  have hb := (post_basic outcomes ck st).2
  rw [hres] at hb
  simpa [PostResult.numAttempts] using hb

/-- Witness for C1: the always-429 behaviour, one key, fresh state. -/
theorem payload_always_429_terminates_after_max_attempts_witness :
    (post wOutcomes429 (fun _ => 0) ⟨0, [0], 0⟩).1 = .raised "Too many requests" 10 ∧
    (post wOutcomes429 (fun _ => 0) ⟨0, [0], 0⟩).2.callCount = 0 + 10 :=
  payload_always_429_terminates_after_max_attempts wOutcomes429 (fun _ => 0) ⟨0, [0], 0⟩
    (fun _ => ⟨"busy", rfl⟩)

/-- Claim C2: a payload whose first attempt returns a non-429 non-2xx
status terminates at once: the response is returned after exactly one
call (zero retries) and the observer logs it as a failure. -/
theorem non_429_response_single_attempt
    (outcomes : Nat → AttemptOutcome) (ck : Nat → Nat) (st : RunState)
    (s : Nat) (b : String)
    (h1 : outcomes 1 = .response s b) (h429 : s ≠ 429)
    (h2xx : ¬ (200 ≤ s ∧ s ≤ 299)) :
    (post outcomes ck st).1 = .response s b 1 ∧
    loggedAsError (post outcomes ck st).1 = true ∧
    (post outcomes ck st).2.callCount = st.callCount + 1 := by
  have he : attemptEval (outcomes 1) = .ok (s, b) := by
    rw [h1]
    simp [attemptEval, h429]
  have hres : (post outcomes ck st).1 = .response s b 1 := by
    simp only [post]
    rw [retryGo_stop_ok outcomes ck _ 1 st s b he]
  refine ⟨hres, ?_, ?_⟩
  · rw [hres]
    simp only [loggedAsError, bne_iff_ne, ne_eq, decide_eq_true_eq]
    omega
  · have hb := (post_basic outcomes ck st).2
    rw [hres] at hb
    simpa [PostResult.numAttempts] using hb

/-- Witness for C2: a 503 response on the first attempt. -/
theorem non_429_response_single_attempt_witness :
    (post (fun _ => .response 503 "unavailable") (fun _ => 0) ⟨0, [0], 0⟩).1
        = .response 503 "unavailable" 1 ∧
    loggedAsError (post (fun _ => .response 503 "unavailable") (fun _ => 0) ⟨0, [0], 0⟩).1
        = true ∧
    (post (fun _ => .response 503 "unavailable") (fun _ => 0) ⟨0, [0], 0⟩).2.callCount
        = 0 + 1 :=
  non_429_response_single_attempt (fun _ => .response 503 "unavailable") (fun _ => 0)
    ⟨0, [0], 0⟩ 503 "unavailable" rfl (by decide) (by decide)

/-- Claim C3: every dispatch run yields exactly one terminal result per
submitted payload, and the progress indicator advances exactly once per
payload. -/
theorem dispatch_one_result_per_payload (ck : Nat → Nat)
    (jobs : List (Nat → AttemptOutcome)) (st : RunState) :
    (sendAll ck jobs st).1.length = jobs.length ∧
    (sendAll ck jobs st).2.progress = st.progress + jobs.length :=
  ⟨(sendAll_basic ck jobs st).1, (sendAll_basic ck jobs st).2.1⟩

/-- Claim C5: starting from the empty usage map, after any dispatch run
the usage counts summed over all credentials equal the total number of
HTTP calls issued, counting every retry attempt as one call. -/
theorem credential_usage_sum_equals_total_calls (ck : Nat → Nat) (n : Nat)
    (hck : ∀ t, ck t < n) (jobs : List (Nat → AttemptOutcome)) :
    (sendAll ck jobs ⟨0, List.replicate n 0, 0⟩).2.usage.sum
      = ((sendAll ck jobs ⟨0, List.replicate n 0, 0⟩).1.map PostResult.numAttempts).sum ∧
    (sendAll ck jobs ⟨0, List.replicate n 0, 0⟩).2.usage.sum
      = (sendAll ck jobs ⟨0, List.replicate n 0, 0⟩).2.callCount := by
  have h := sendAll_usage ck n hck jobs ⟨0, List.replicate n 0, 0⟩ (by simp)
  have hb := sendAll_basic ck jobs ⟨0, List.replicate n 0, 0⟩
  constructor
  · simpa using h.2
  · have h2 := h.2
    have hc := hb.2.2
    simp at h2 hc
    omega

/-- Witness for C5: two keys chosen round-robin, one payload taking three
attempts and one taking a single attempt, four calls in total. -/
theorem credential_usage_sum_equals_total_calls_witness :
    ((sendAll (fun t => t % 2) [wOutcomes429Twice, wOutcomesOk]
        ⟨0, List.replicate 2 0, 0⟩).2.usage.sum
      = ((sendAll (fun t => t % 2) [wOutcomes429Twice, wOutcomesOk]
          ⟨0, List.replicate 2 0, 0⟩).1.map PostResult.numAttempts).sum ∧
     (sendAll (fun t => t % 2) [wOutcomes429Twice, wOutcomesOk]
        ⟨0, List.replicate 2 0, 0⟩).2.usage.sum
      = (sendAll (fun t => t % 2) [wOutcomes429Twice, wOutcomesOk]
          ⟨0, List.replicate 2 0, 0⟩).2.callCount) ∧
    (sendAll (fun t => t % 2) [wOutcomes429Twice, wOutcomesOk]
        ⟨0, List.replicate 2 0, 0⟩).2.usage.sum = 4 :=
  ⟨credential_usage_sum_equals_total_calls (fun t => t % 2) 2
      (fun t => Nat.mod_lt t (by decide)) [wOutcomes429Twice, wOutcomesOk],
   by decide⟩

/-- Claim C9: a payload answered 429, 429, then 200 yields a success
result on the third attempt: exactly three calls, the first two retried,
and the observer does not log it as a failure. -/
theorem two_429_then_200_succeeds_on_third_attempt
    (outcomes : Nat → AttemptOutcome) (ck : Nat → Nat) (st : RunState)
    (b1 b2 b : String)
    (h1 : outcomes 1 = .response 429 b1) (h2 : outcomes 2 = .response 429 b2)
    (h3 : outcomes 3 = .response 200 b) :
    (post outcomes ck st).1 = .response 200 b 3 ∧
    loggedAsError (post outcomes ck st).1 = false ∧
    (post outcomes ck st).2.callCount = st.callCount + 3 := by
  have hm : is_rate_limit_error "Too many requests" = true := by decide
  have he1 : attemptEval (outcomes 1) = .error "Too many requests" := by
    rw [h1]; simp [attemptEval]
  have he2 : attemptEval (outcomes 2) = .error "Too many requests" := by
    rw [h2]; simp [attemptEval]
  have he3 : attemptEval (outcomes 3) = .ok (200, b) := by
    rw [h3]; simp [attemptEval]
  have e0 : post outcomes ck st = retryGo outcomes ck 9 1 st := by
    simp [post, stopMaxAttemptNumber]
  have e1 := retryGo_step_error outcomes ck 9 1 st _ he1 hm (by decide)
  have e2 := retryGo_step_error outcomes ck (9 - 1) (1 + 1) (recordCall ck st) _ he2 hm
    (by decide)
  have e3 := retryGo_stop_ok outcomes ck (9 - 1 - 1) (1 + 1 + 1)
    (recordCall ck (recordCall ck st)) 200 b he3
  have hres : (post outcomes ck st).1 = .response 200 b 3 := by
    rw [e0, e1, e2, e3]
  refine ⟨hres, ?_, ?_⟩
  · rw [hres]
    simp [loggedAsError]
  · have hb := (post_basic outcomes ck st).2
    rw [hres] at hb
    simpa [PostResult.numAttempts] using hb

/-- Witness for C9: the concrete 429-429-200 behaviour. -/
theorem two_429_then_200_succeeds_on_third_attempt_witness :
    (post wOutcomes429Twice (fun _ => 0) ⟨0, [0], 0⟩).1 = .response 200 "ok" 3 ∧
    loggedAsError (post wOutcomes429Twice (fun _ => 0) ⟨0, [0], 0⟩).1 = false ∧
    (post wOutcomes429Twice (fun _ => 0) ⟨0, [0], 0⟩).2.callCount = 0 + 3 :=
  two_429_then_200_succeeds_on_third_attempt wOutcomes429Twice (fun _ => 0) ⟨0, [0], 0⟩
    "busy" "busy" "ok" rfl rfl rfl

/-- A payload answered 201 on every attempt. -/
def wOutcomes201 : Nat → AttemptOutcome := fun _ => .response 201 "created"

/-- Claim C6 counterexample: a 201 response — a 2xx status — is captured
in the result after a single attempt, yet the observer logs it through
`logger.error`, because `send_requests` tests `status_code != 200` rather
than membership in the 2xx range; so "any 2xx ... is not logged or
recorded as a failure" is false at status 201. -/
theorem non200_2xx_is_logged_as_error :
    (post wOutcomes201 (fun _ => 0) ⟨0, [0], 0⟩).1 = .response 201 "created" 1 ∧
    loggedAsError (post wOutcomes201 (fun _ => 0) ⟨0, [0], 0⟩).1 = true := by
  decide

/-- Claim C6 (amended): a non-429 response is captured in the result
after a single attempt, and it escapes the observer's failure log exactly
when its status is 200 — so 200 is a success, while every other status,
including the remaining 2xx codes, is logged as an error. -/
theorem only_status_200_not_logged_as_failure
    (outcomes : Nat → AttemptOutcome) (ck : Nat → Nat) (st : RunState)
    (s : Nat) (b : String)
    (h1 : outcomes 1 = .response s b) (h429 : s ≠ 429) :
    (post outcomes ck st).1 = .response s b 1 ∧
    (loggedAsError (post outcomes ck st).1 = false ↔ s = 200) := by
  have he : attemptEval (outcomes 1) = .ok (s, b) := by
    rw [h1]
    simp [attemptEval, h429]
  have hres : (post outcomes ck st).1 = .response s b 1 := by
    simp only [post]
    rw [retryGo_stop_ok outcomes ck _ 1 st s b he]
  refine ⟨hres, ?_⟩
  rw [hres]
  simp [loggedAsError]

/-- Witness for the amended C6 at status 200. -/
theorem only_status_200_not_logged_as_failure_witness :
    (post wOutcomesOk (fun _ => 0) ⟨0, [0], 0⟩).1 = .response 200 "ok" 1 ∧
    (loggedAsError (post wOutcomesOk (fun _ => 0) ⟨0, [0], 0⟩).1 = false ↔ (200 : Nat) = 200) :=
  only_status_200_not_logged_as_failure wOutcomesOk (fun _ => 0) ⟨0, [0], 0⟩ 200 "ok" rfl
    (by decide)

/-- A transport failure whose message lacks the rate-limit phrase. -/
def wOutcomesTransportFatal : Nat → AttemptOutcome :=
  fun _ => .transportError "connection refused"

/-- A transport failure whose message happens to contain the rate-limit
phrase, followed by a 200. -/
def wOutcomesTransportMatching : Nat → AttemptOutcome
  | 1 => .transportError "proxy said: Too many requests"
  | _ => .response 200 "ok"

/-- Claim C7: the retry predicate is exactly the text search for
"Too many requests" in the stringified exception: a transport failure
whose message lacks the phrase is terminal after one attempt with no
retry, while an exception whose message contains the phrase is retried
even though it was not an HTTP 429 response. -/
theorem retry_iff_message_contains_phrase
    (outcomes : Nat → AttemptOutcome) (ck : Nat → Nat) (st : RunState) (m : String)
    (h1 : outcomes 1 = .transportError m) :
    (strContains m "Too many requests" = false →
      (post outcomes ck st).1 = .raised m 1) ∧
    (strContains m "Too many requests" = true →
      ∀ s b, outcomes 2 = .response s b → s ≠ 429 →
        (post outcomes ck st).1 = .response s b 2) := by
  have he : attemptEval (outcomes 1) = .error m := by rw [h1]; rfl
  constructor
  · intro hf
    simp only [post]
    rw [retryGo_stop_error outcomes ck _ 1 st m he hf]
  · intro ht s b h2 h429
    have he2 : attemptEval (outcomes 2) = .ok (s, b) := by
      rw [h2]
      simp [attemptEval, h429]
    have e0 : post outcomes ck st = retryGo outcomes ck 9 1 st := by
      simp [post, stopMaxAttemptNumber]
    have e1 := retryGo_step_error outcomes ck 9 1 st m he ht (by decide)
    have e2 := retryGo_stop_ok outcomes ck (9 - 1) (1 + 1) (recordCall ck st) s b he2
    rw [e0, e1, e2]

/-- Witness for C7: "connection refused" is terminal on attempt 1; a
transport message containing the phrase is retried and succeeds on
attempt 2. -/
theorem retry_iff_message_contains_phrase_witness :
    (post wOutcomesTransportFatal (fun _ => 0) ⟨0, [0], 0⟩).1
        = .raised "connection refused" 1 ∧
    (post wOutcomesTransportMatching (fun _ => 0) ⟨0, [0], 0⟩).1
        = .response 200 "ok" 2 :=
  ⟨(retry_iff_message_contains_phrase wOutcomesTransportFatal (fun _ => 0) ⟨0, [0], 0⟩
      "connection refused" rfl).1 (by decide),
   (retry_iff_message_contains_phrase wOutcomesTransportMatching (fun _ => 0) ⟨0, [0], 0⟩
      "proxy said: Too many requests" rfl).2 (by decide) 200 "ok" rfl (by decide)⟩

/-- Claim C4: over any list of N fetched records, the Request Builder
produces exactly 3N payloads; the three payloads of record `i` sit
contiguously at offset `3 * i` in the fixed order similarity,
conciseness, code-presence (`prepare_requests` applies the three builders
to exactly record `i`'s question and both answers), with no dependence on
any other record. -/
theorem request_builder_three_per_record (qa_pairs : List EvaluatedQA) (model : String) :
    (allRequests qa_pairs model).length = 3 * qa_pairs.length ∧
    ∀ i (h : i < qa_pairs.length),
      (allRequests qa_pairs model).drop (3 * i)
        = prepare_requests qa_pairs[i] model
            ++ allRequests (qa_pairs.drop (i + 1)) model := by
  constructor
  · induction qa_pairs with
    | nil => simp [allRequests]
    | cons qa rest ih =>
      have e1 : allRequests (qa :: rest) model
          = prepare_requests qa model ++ allRequests rest model := by
        simp [allRequests]
      have e2 : (prepare_requests qa model).length = 3 := rfl
      rw [e1, List.length_append, ih, e2, List.length_cons]
      omega
  · induction qa_pairs with
    | nil => intro i h; simp at h
    | cons qa rest ih =>
      intro i h
      have e1 : allRequests (qa :: rest) model
          = prepare_requests qa model ++ allRequests rest model := by
        simp [allRequests]
      cases i with
      | zero => simp [e1]
      | succ j =>
        have hj : j < rest.length := by simpa using h
        have e2 : (prepare_requests qa model).length = 3 := rfl
        have e3 : (prepare_requests qa model ++ allRequests rest model).drop (3 * (j + 1))
            = (allRequests rest model).drop (3 * j) := by
          have e4 : 3 * (j + 1) = (prepare_requests qa model).length + 3 * j := by
            rw [e2]; omega
          rw [e4, List.drop_append]
        rw [e1, e3, ih j hj]
        simp

/-- A concrete record for the witnesses. -/
def wQA : EvaluatedQA :=
  { replay_id := "r1"
    old_qa_pair := { id := "o1", question := "q", answer := "old answer",
                     feedback := none, version := "v0", sources := [] }
    new_qa_pair := { id := "n1", question := "q", answer := "new answer",
                     feedback := none, version := "v1", sources := [] }
    checks := []
    errors := [] }

/-- Witness for C4 on a one-record list. -/
theorem request_builder_three_per_record_witness :
    (allRequests [wQA] "gpt-4").length = 3 * 1 ∧
    (allRequests [wQA] "gpt-4").drop (3 * 0)
      = prepare_requests wQA "gpt-4" ++ allRequests ([wQA].drop (0 + 1)) "gpt-4" := by
  have h := request_builder_three_per_record [wQA] "gpt-4"
  exact ⟨h.1, h.2 0 (by decide)⟩

/-- The old-QA sub-dictionary used by the C8 witnesses. -/
def wOldQA : OldQAData :=
  { id := "o1", answer := "old answer", app_version := "v0", sources := [],
    evaluation := none }

/-- A hit that translates successfully. -/
def wGoodHit : Hit :=
  { id := "h1", question := "q", answer := "a", app_version := "v1",
    feedback := none, sources := [],
    evaluation := some { replay_id := some "r1", checks := some [], errors := [],
                         old_qa := wOldQA } }

/-- A hit with no evaluation sub-structure. -/
def wBadHit : Hit :=
  { id := "h2", question := "q2", answer := "a2", app_version := "v1",
    feedback := none, sources := [], evaluation := none }

/-- Claim C8 counterexample: with one well-formed hit followed by one hit
lacking the evaluation sub-structure, `get_qa_pairs` raises ValueError
and returns no list at all — in particular the well-formed record is NOT
"still returned", contradicting the claim as stated. -/
theorem missing_evaluation_aborts_whole_fetch :
    get_qa_pairs [wGoodHit, wBadHit]
      = .error "ValueError: Specified QA pair has not been evaluated" ∧
    ¬ ∃ l, get_qa_pairs [wGoodHit, wBadHit] = .ok l := by
  constructor
  · rfl
  · rintro ⟨l, hl⟩
    rw [show get_qa_pairs [wGoodHit, wBadHit]
        = Except.error "ValueError: Specified QA pair has not been evaluated" from rfl] at hl
    exact Except.noConfusion hl

/-- Claim C8 (amended): a fetched record lacking the evaluation
sub-structure makes the adapter raise (ValueError), and the raise aborts
the entire fetch — no list is returned at all, not even the records that
do carry evaluation data; only when every fetched record translates
successfully is a list returned, with one entry per hit. -/
theorem missing_evaluation_aborts_fetch_or_all_returned (hits : List Hit) :
    (∀ bad ∈ hits, bad.evaluation = none → ∀ l, get_qa_pairs hits ≠ .ok l) ∧
    ((∀ h ∈ hits, ∃ qa, processHit h = .ok qa) →
      ∃ l, get_qa_pairs hits = .ok l ∧ l.length = hits.length) := by
  constructor
  · induction hits with
    | nil => intro bad hbad; simp at hbad
    | cons hd tl ih =>
      intro bad hbad hnone l hok
      rcases List.mem_cons.mp hbad with heq | htl
      · subst heq
        have hperr : processHit bad
            = .error "ValueError: Specified QA pair has not been evaluated" := by
          simp [processHit, hnone]
        simp [get_qa_pairs, hperr] at hok
      · cases hp : processHit hd with
        | error e => simp [get_qa_pairs, hp] at hok
        | ok qa =>
          cases hr : get_qa_pairs tl with
          | error e => simp [get_qa_pairs, hp, hr] at hok
          | ok rest => exact ih bad htl hnone rest hr
  · induction hits with
    | nil => intro _; exact ⟨[], rfl, rfl⟩
    | cons hd tl ih =>
      intro hall
      obtain ⟨qa, hqa⟩ := hall hd (List.mem_cons_self hd tl)
      obtain ⟨l, hl, hlen⟩ := ih (fun h hm => hall h (List.mem_cons_of_mem hd hm))
      exact ⟨qa :: l, by simp [get_qa_pairs, hqa, hl], by simp [hlen]⟩

/-- Witness for the amended C8: the bad hit alone yields no list; the
good hit alone yields a one-entry list. -/
theorem missing_evaluation_aborts_fetch_or_all_returned_witness :
    (∀ l, get_qa_pairs [wBadHit] ≠ .ok l) ∧
    (∃ l, get_qa_pairs [wGoodHit] = .ok l ∧ l.length = 1) := by
  constructor
  · intro l
    exact (missing_evaluation_aborts_fetch_or_all_returned [wBadHit]).1 wBadHit
      (List.mem_cons_self wBadHit []) rfl l
  · exact (missing_evaluation_aborts_fetch_or_all_returned [wGoodHit]).2
      (fun h hm => by
        rcases List.mem_cons.mp hm with heq | hm2
        · subst heq; exact ⟨_, rfl⟩
        · simp at hm2)

/-- Claim C10: the feedback attached to the returned `old_qa_pair` is
guarded by the NEW record's top-level feedback field, not by the old
record's own data: with the top-level field absent, the old pair's
feedback is `None` even when `evaluation["old_qa"]` carries its own
evaluation data; with the top-level field present but no
`evaluation["old_qa"]["evaluation"]` entry, `get_qa_pairs` raises
instead of returning a record. -/
theorem old_feedback_guarded_by_new_feedback (hit : Hit) :
    (hit.feedback = none → ∀ qa, processHit hit = .ok qa →
      qa.old_qa_pair.feedback = none) ∧
    (∀ f ev, hit.feedback = some f → hit.evaluation = some ev →
      ev.old_qa.evaluation = none →
      ∃ msg, get_qa_pairs [hit] = .error msg) := by
  constructor
  · intro hfb qa hok
    cases hev : hit.evaluation with
    | none => simp [processHit, hev] at hok
    | some ev =>
      cases hrid : ev.replay_id with
      | none => simp [processHit, hev, hrid] at hok
      | some rid =>
        cases hchk : ev.checks with
        | none => simp [processHit, hev, hrid, hchk] at hok
        | some cks =>
          simp [processHit, hev, hrid, hchk, hfb] at hok
          subst hok
          rfl
  · intro f ev hf hev hold
    have hperr : ∃ msg, processHit hit = .error msg := by
      cases hrid : ev.replay_id with
      | none => exact ⟨"KeyError: replay_id", by simp [processHit, hev, hrid]⟩
      | some rid =>
        cases hchk : ev.checks with
        | none =>
          exact ⟨"AttributeError: NoneType object has no attribute items",
            by simp [processHit, hev, hrid, hchk]⟩
        | some cks =>
          exact ⟨"TypeError: argument of type NoneType is not a mapping",
            by simp [processHit, hev, hrid, hchk, hf, hold]⟩
    obtain ⟨msg, hmsg⟩ := hperr
    exact ⟨msg, by simp [get_qa_pairs, hmsg]⟩

/-- A hit whose top-level feedback is absent while its old QA carries its
own evaluation data. -/
def wC10HitAbsent : Hit :=
  { id := "h3", question := "q3", answer := "a3", app_version := "v1",
    feedback := none, sources := [],
    evaluation := some
      { replay_id := some "r3", checks := some [], errors := [],
        old_qa := { id := "o3", answer := "oa3", app_version := "v0", sources := [],
                    evaluation := some { rating := 5, alternative_answer := none,
                                         comment := none } } } }

/-- The record `processHit` produces for `wC10HitAbsent`. -/
def wC10QA : EvaluatedQA :=
  { replay_id := "r3"
    old_qa_pair := { id := "o3", question := "q3", answer := "oa3", feedback := none,
                     version := "v0", sources := [] }
    new_qa_pair := { id := "h3", question := "q3", answer := "a3", feedback := none,
                     version := "v1", sources := [] }
    checks := []
    errors := [] }

/-- A hit whose top-level feedback is present while its old QA has no
evaluation entry. -/
def wC10HitPresent : Hit :=
  { id := "h4", question := "q4", answer := "a4", app_version := "v1",
    feedback := some { rating := 4, alternative_answer := none, comment := none },
    sources := [],
    evaluation := some
      { replay_id := some "r4", checks := some [], errors := [],
        old_qa := { id := "o4", answer := "oa4", app_version := "v0", sources := [],
                    evaluation := none } } }

/-- Witness for C10 on the two concrete hits. -/
theorem old_feedback_guarded_by_new_feedback_witness :
    wC10QA.old_qa_pair.feedback = none ∧
    (∃ msg, get_qa_pairs [wC10HitPresent] = .error msg) :=
  ⟨(old_feedback_guarded_by_new_feedback wC10HitAbsent).1 rfl wC10QA rfl,
   (old_feedback_guarded_by_new_feedback wC10HitPresent).2
     { rating := 4, alternative_answer := none, comment := none }
     { replay_id := some "r4", checks := some [], errors := [],
       old_qa := { id := "o4", answer := "oa4", app_version := "v0", sources := [],
                   evaluation := none } } rfl rfl rfl⟩

end ProxyStress
